import Mathlib

/-!
Shallow embedding of the remote Alertmanager gateway of
pkg/services/ngalert/remote/alertmanager.go and proofs about it.

The embedding follows the Go source function by function.  External
collaborators (the HTTP transport, the go-openapi protocol binding, the
configuration store, and the alerts sender) are represented by explicit
oracle arguments describing the outcome of the single call the gateway
makes to them; everything the gateway itself computes is embedded as an
executable Lean function.  Durations are measured in milliseconds.
-/

namespace GrafanaRemote

/-- Embedding of Go strings.TrimSuffix: drop `suffix` when `s` ends with it. -/
def trimSuffix (s suffix : String) : String :=
  if s.endsWith suffix then s.dropRight suffix.length else s

/-- Embedding of http.Header.Set on an association list of header key/value
pairs: replace every previous value of the key. -/
def headerSet (headers : List (String × String)) (key value : String) :
    List (String × String) :=
  (key, value) :: headers.filter (fun kv => kv.1 ≠ key)

/-- Lookup of a header value (http.Header.Get). -/
def headerGet (headers : List (String × String)) (key : String) : Option String :=
  (headers.find? (fun kv => kv.1 == key)).map Prod.snd

/-- Standard base64 alphabet, used by Go http.Request.SetBasicAuth. -/
def base64Alphabet : List Char :=
  "ABCDEFGHIJKLMNOPQRSTUVWXYZabcdefghijklmnopqrstuvwxyz0123456789+/".toList

/-- A single base64 digit. -/
def base64Digit (n : Nat) : Char := base64Alphabet.getD n 'A'

/-- Base64-encode a byte list (standard encoding with padding). -/
def base64EncodeBytes : List Nat → List Char
  | [] => []
  | [b1] =>
    [base64Digit (b1 / 4), base64Digit (b1 % 4 * 16), '=', '=']
  | [b1, b2] =>
    [base64Digit (b1 / 4), base64Digit (b1 % 4 * 16 + b2 / 16),
     base64Digit (b2 % 16 * 4), '=']
  | b1 :: b2 :: b3 :: rest =>
    base64Digit (b1 / 4) :: base64Digit (b1 % 4 * 16 + b2 / 16) ::
      base64Digit (b2 % 16 * 4 + b3 / 64) :: base64Digit (b3 % 64) ::
      base64EncodeBytes rest

/-- Base64-encode the UTF-8 bytes of a string. -/
def base64Encode (s : String) : String :=
  String.mk (base64EncodeBytes (s.toUTF8.toList.map UInt8.toNat))

/-- Value of the Authorization header written by Go req.SetBasicAuth. -/
def basicAuthHeaderValue (username password : String) : String :=
  "Basic " ++ base64Encode (username ++ ":" ++ password)

/-- Constant readyEndpoint of the source. -/
def readyEndpoint : String := "/-/ready"

/-- Constant defaultConfigEndpoint of the source. -/
def defaultConfigEndpoint : String := "/api/v1/alerts"

/-- Constant senderStartTimeout of the source (10 seconds), in milliseconds. -/
def senderStartTimeout : Nat := 10000

/-- Interval of time.NewTicker in checkReadiness (100 milliseconds). -/
def tickerInterval : Nat := 100

/-- The AlertmanagerConfig struct of the source. -/
structure AlertmanagerConfig where
  URL : String
  TenantID : String
  BasicAuthPassword : String
  ConfigEndpoint : String
deriving DecidableEq, Repr

/-- The gateway state: the plain-data fields of the Alertmanager struct of the
source (the client, logger, store and sender fields are external
collaborators reached through oracles). -/
structure Alertmanager where
  orgID : Int
  tenantID : String
  url : String
  configEndpoint : String
  ready : Bool
deriving DecidableEq, Repr

/-- Errors NewAlertmanager can return: the explicit empty-URL error, a
url.Parse failure, or a failure of sender.ApplyConfig. -/
inductive NewAlertmanagerError where
  | emptyURL (tenantID : String)
  | urlParseError (msg : String)
  | senderApplyError (msg : String)
deriving DecidableEq, Repr

/-- Embedding of NewAlertmanager.  The outcome of url.Parse on cfg.URL and of
sender.ApplyConfig (both external to the gateway) are passed as oracles;
everything else follows the source: the config endpoint defaults when empty,
an empty URL is rejected before any network traffic, and the returned gateway
starts with ready set to false. -/
def NewAlertmanager (cfg : AlertmanagerConfig) (orgID : Int)
    (urlParse : Except String Unit) (senderApply : Except String Unit) :
    Except NewAlertmanagerError Alertmanager :=
  let endpoint := if cfg.ConfigEndpoint = "" then defaultConfigEndpoint
    else cfg.ConfigEndpoint
  if cfg.URL = "" then
    .error (.emptyURL cfg.TenantID)
  else
    match urlParse with
    | .error msg => .error (.urlParseError msg)
    | .ok () =>
      match senderApply with
      | .error msg => .error (.senderApplyError msg)
      | .ok () =>
        .ok { orgID := orgID, tenantID := cfg.TenantID, url := cfg.URL,
              configEndpoint := endpoint, ready := false }

/-- The roundTripper struct of the source. -/
structure roundTripper where
  tenantID : String
  basicAuthPassword : String
deriving DecidableEq, Repr

/-- Embedding of roundTripper.RoundTrip on the headers of the outgoing
request: unconditionally set X-Scope-OrgID to the tenant id, and set basic
auth credentials only when both the tenant id and the password are
non-empty. -/
def RoundTrip (r : roundTripper) (headers : List (String × String)) :
    List (String × String) :=
  let headers := headerSet headers "X-Scope-OrgID" r.tenantID
  if r.tenantID ≠ "" ∧ r.basicAuthPassword ≠ "" then
    headerSet headers "Authorization" (basicAuthHeaderValue r.tenantID r.basicAuthPassword)
  else
    headers

/-- Response of the readiness probe (the response data matters only through
its status code). -/
structure ProbeResponse where
  status : Nat
deriving DecidableEq, Repr

/-- Errors of checkReadiness: a failure building or performing the probe
request, the wrapped ErrAlertmanagerNotReady carrying a non-200 status code,
and the bare ErrAlertmanagerNotReady returned by the deadline branch of the
wait loop. -/
inductive ReadinessError where
  | probeFailure (msg : String)
  | notReadyStatus (code : Nat)
  | notReady
deriving DecidableEq, Repr

/-- Outcome of one run of the sender wait loop. -/
inductive LoopOutcome where
  | success (attempts : Nat)
  | deadline
deriving DecidableEq, Repr

/-- Embedding of the for-select loop at the end of checkReadiness.  The loop
body is instantaneous, so an iteration entered at time `entry` sees the
100 ms ticker fire at `entry + tickerInterval`; crucially, the source calls
time.After(senderStartTimeout) INSIDE the select, so each iteration arms a
fresh deadline timer firing at `entry + senderStartTimeout`, and Go's select
picks whichever channel is ready first.  `count n` is the value of
len(am.sender.Alertmanagers()) observed at the n-th tick, and `fuel` bounds
the number of select iterations we unfold: `none` means the loop has not
returned within `fuel` iterations. -/
def senderWaitLoop (count : Nat → Nat) (attempts entry : Nat) :
    Nat → Option LoopOutcome
  | 0 => none
  | fuel + 1 =>
    if entry + tickerInterval < entry + senderStartTimeout then
      if 0 < count (attempts + 1) then
        some (.success (attempts + 1))
      else
        senderWaitLoop count (attempts + 1) (entry + tickerInterval) fuel
    else
      some .deadline

/-- Embedding of checkReadiness: build and perform the probe request (oracle
`probe` covers both failure points), demand status 200, then enter the
sender wait loop; on loop success the ready flag is set.  `none` means the
call has not returned within `fuel` loop iterations. -/
def checkReadiness (am : Alertmanager) (probe : Except String ProbeResponse)
    (count : Nat → Nat) (fuel : Nat) :
    Option (Except ReadinessError Alertmanager) :=
  match probe with
  | .error msg => some (.error (.probeFailure msg))
  | .ok res =>
    if res.status ≠ 200 then
      some (.error (.notReadyStatus res.status))
    else
      match senderWaitLoop count 0 0 fuel with
      | none => none
      | some (.success _) => some (.ok { am with ready := true })
      | some .deadline => some (.error .notReady)

/-- Embedding of ApplyConfig: a no-op success when the gateway is already
ready, otherwise checkReadiness. -/
def ApplyConfig (am : Alertmanager) (probe : Except String ProbeResponse)
    (count : Nat → Nat) (fuel : Nat) :
    Option (Except ReadinessError Alertmanager) :=
  if am.ready then some (.ok am)
  else checkReadiness am probe count fuel

/-- Outcome of one call into the go-openapi protocol binding: a normal
result, a normal Go error, or an unrecoverable runtime fault (panic) raised
inside the binding. -/
inductive BindingOutcome (α : Type) where
  | ok (value : α)
  | err (msg : String)
  | panicked (msg : String)
deriving DecidableEq, Repr

/-- What a relay call hands back: the first and second Go return values
(`goErr = none` is a nil error) together with the log lines written by the
deferred recover boundary.  A relay call that yields a `RelayOutput` has
returned normally: the fault did not escape to the caller. -/
structure RelayOutput (α : Type) where
  value : α
  goErr : Option String
  panicsLogged : List String
deriving DecidableEq, Repr

/-- Go semantics of the deferred recover boundary used by every relay method:
on a panic the deferred function logs and recovers, and since the method's
result parameters are UNNAMED they still hold their zero values, so the
method returns (zeroValue, nil).  On a normal return the boundary is
inert. -/
def relayBoundary {α : Type} (zeroValue : α) (logLine : String)
    (call : BindingOutcome α) : RelayOutput α :=
  match call with
  | .ok value => ⟨value, none, []⟩
  | .err msg => ⟨zeroValue, some msg, []⟩
  | .panicked msg => ⟨zeroValue, none, [logLine ++ ": " ++ msg]⟩

/-- Minimal model of a gettable silence (identity assigned remotely). -/
structure GettableSilence where
  id : String
deriving DecidableEq, Repr

/-- Minimal model of a gettable alert. -/
structure GettableAlert where
  labels : List (String × String)
deriving DecidableEq, Repr

/-- Minimal model of an alert group. -/
structure AlertGroup where
  alerts : List GettableAlert
deriving DecidableEq, Repr

/-- Embedding of Alertmanager.CreateSilence: proxy PostSilences and return
res.Payload.SilenceID; the zero values of the unnamed results are
("", nil). -/
def CreateSilence (call : BindingOutcome String) : RelayOutput String :=
  relayBoundary "" "Panic while creating silence" call

/-- Embedding of Alertmanager.DeleteSilence (only an error result). -/
def DeleteSilence (call : BindingOutcome Unit) : RelayOutput Unit :=
  relayBoundary () "Panic while deleting silence" call

/-- Embedding of Alertmanager.GetSilence; the zero value of the struct result
is the empty GettableSilence. -/
def GetSilence (call : BindingOutcome GettableSilence) : RelayOutput GettableSilence :=
  relayBoundary ⟨""⟩ "Panic while getting silence" call

/-- Embedding of Alertmanager.ListSilences; the zero value of the slice
result is the empty list. -/
def ListSilences (call : BindingOutcome (List GettableSilence)) :
    RelayOutput (List GettableSilence) :=
  relayBoundary [] "Panic while listing silences" call

/-- Embedding of Alertmanager.GetAlerts. -/
def GetAlerts (call : BindingOutcome (List GettableAlert)) :
    RelayOutput (List GettableAlert) :=
  relayBoundary [] "Panic while getting alerts" call

/-- Embedding of Alertmanager.GetAlertGroups. -/
def GetAlertGroups (call : BindingOutcome (List AlertGroup)) :
    RelayOutput (List AlertGroup) :=
  relayBoundary [] "Panic while getting alert groups" call

/-- JSON values, restricted to the constructors the configuration envelope
uses (strings, arrays, objects). -/
inductive Json where
  | str (s : String)
  | arr (elems : List Json)
  | obj (fields : List (String × Json))
deriving Repr, Inhabited

/-- Escape one character for a JSON string literal. -/
def escapeChar (c : Char) : List Char :=
  if c = '\"' ∨ c = '\\' then ['\\', c] else [c]

/-- Escape a character list for a JSON string literal. -/
def escapeChars : List Char → List Char
  | [] => []
  | c :: cs => escapeChar c ++ escapeChars cs

/-- Render a JSON string literal (quotes and escapes). -/
def renderString (s : String) : List Char :=
  '\"' :: escapeChars s.toList ++ ['\"']

mutual

/-- Render a JSON value to text. -/
def renderJson : Json → List Char
  | .str s => renderString s
  | .arr es => '[' :: renderElems es ++ [']']
  | .obj fs => '\x7b' :: renderMembers fs ++ ['\x7d']

/-- Render comma-separated array elements. -/
def renderElems : List Json → List Char
  | [] => []
  | [e] => renderJson e
  | e :: es => renderJson e ++ ',' :: renderElems es

/-- Render comma-separated object members. -/
def renderMembers : List (String × Json) → List Char
  | [] => []
  | [(k, v)] => renderString k ++ ':' :: renderJson v
  | (k, v) :: fs => renderString k ++ ':' :: renderJson v ++ ',' :: renderMembers fs

end

/-- Parse the body of a JSON string literal after the opening quote, undoing
the escapes, and return the decoded characters and the remaining input. -/
def parseStringBody : List Char → Option (List Char × List Char)
  | [] => none
  | c :: rest =>
    if c = '\"' then some ([], rest)
    else if c = '\\' then
      match rest with
      | [] => none
      | c2 :: rest2 => (parseStringBody rest2).map (fun p => (c2 :: p.1, p.2))
    else (parseStringBody rest).map (fun p => (c :: p.1, p.2))

mutual

/-- Parse one JSON value; `fuel` bounds the nesting the parser will enter. -/
def parseJson : Nat → List Char → Option (Json × List Char)
  | 0, _ => none
  | _ + 1, [] => none
  | fuel + 1, c :: rest =>
    if c = '\"' then
      (parseStringBody rest).map (fun p => (Json.str (String.mk p.1), p.2))
    else if c = '[' then
      (parseElems fuel rest).map (fun p => (Json.arr p.1, p.2))
    else if c = '\x7b' then
      (parseMembers fuel rest).map (fun p => (Json.obj p.1, p.2))
    else
      none

/-- Parse array elements up to and including the closing bracket. -/
def parseElems : Nat → List Char → Option (List Json × List Char)
  | 0, _ => none
  | _ + 1, [] => none
  | fuel + 1, c :: rest =>
    if c = ']' then some ([], rest)
    else
      match parseJson fuel (c :: rest) with
      | none => none
      | some (e, rest2) =>
        match rest2 with
        | ',' :: rest3 => (parseElems fuel rest3).map (fun p => (e :: p.1, p.2))
        | ']' :: rest3 => some ([e], rest3)
        | _ => none

/-- Parse object members up to and including the closing brace. -/
def parseMembers : Nat → List Char → Option (List (String × Json) × List Char)
  | 0, _ => none
  | _ + 1, [] => none
  | fuel + 1, c :: rest =>
    if c = '\x7d' then some ([], rest)
    else if c = '\"' then
      match parseStringBody rest with
      | none => none
      | some (k, rest2) =>
        match rest2 with
        | ':' :: rest3 =>
          match parseJson fuel rest3 with
          | none => none
          | some (v, rest4) =>
            match rest4 with
            | ',' :: rest5 =>
              (parseMembers fuel rest5).map (fun p => ((String.mk k, v) :: p.1, p.2))
            | '\x7d' :: rest5 => some ([(String.mk k, v)], rest5)
            | _ => none
        | _ => none
    else none

end

mutual

/-- Fuel needed by parseJson on the rendering of a value. -/
def sizeJson : Json → Nat
  | .str _ => 1
  | .arr es => 1 + sizeElems es
  | .obj fs => 1 + sizeMembers fs

/-- Fuel needed by parseElems on the rendering of these elements. -/
def sizeElems : List Json → Nat
  | [] => 1
  | e :: es => 1 + max (sizeJson e) (sizeElems es)

/-- Fuel needed by parseMembers on the rendering of these members. -/
def sizeMembers : List (String × Json) → Nat
  | [] => 1
  | (_, v) :: fs => 1 + max (sizeJson v) (sizeMembers fs)

end

/-- First character of the rendering of a JSON value. -/
def renderHeadChar : Json → Char
  | .str _ => '\"'
  | .arr _ => '['
  | .obj _ => '\x7b'

theorem renderJson_head (j : Json) :
    ∃ cs, renderJson j = renderHeadChar j :: cs := by
  cases j with
  | str s => exact ⟨escapeChars s.toList ++ ['\"'], by simp [renderJson, renderString, renderHeadChar]⟩
  | arr es => exact ⟨renderElems es ++ [']'], by simp [renderJson, renderHeadChar]⟩
  | obj fs => exact ⟨renderMembers fs ++ ['\x7d'], by simp [renderJson, renderHeadChar]⟩

theorem renderHeadChar_ne (j : Json) :
    renderHeadChar j ≠ ']' ∧ renderHeadChar j ≠ '\x7d' := by
  cases j <;> simp [renderHeadChar]

theorem parseStringBody_escape (cs tail : List Char) :
    parseStringBody (escapeChars cs ++ '\"' :: tail) = some (cs, tail) := by
  induction cs with
  | nil =>
    rw [escapeChars, List.nil_append, parseStringBody.eq_def]
    simp
  | cons c cs ih =>
    by_cases h : c = '\"' ∨ c = '\\'
    · rw [escapeChars, escapeChar, if_pos h]
      rw [List.cons_append, List.cons_append, parseStringBody.eq_def]
      simp [ih]
    · push_neg at h
      rw [escapeChars, escapeChar, if_neg (by tauto)]
      rw [List.cons_append, parseStringBody.eq_def]
      simp [h.1, h.2, ih]

theorem stringMk_toList (s : String) : String.mk s.toList = s := rfl

theorem sizeJson_pos (j : Json) : 1 ≤ sizeJson j := by
  cases j <;> simp [sizeJson]

theorem sizeElems_pos (es : List Json) : 1 ≤ sizeElems es := by
  cases es with
  | nil => simp [sizeElems]
  | cons e es => simp [sizeElems]

theorem sizeMembers_pos (fs : List (String × Json)) : 1 ≤ sizeMembers fs := by
  cases fs with
  | nil => simp [sizeMembers]
  | cons f fs => obtain ⟨k, v⟩ := f; simp [sizeMembers]

theorem renderElems_cons_cons (e e2 : Json) (rest : List Json) :
    renderElems (e :: e2 :: rest) = renderJson e ++ ',' :: renderElems (e2 :: rest) := by
  rw [renderElems]
  simp

theorem renderMembers_cons_cons (k : String) (v : Json) (f2 : String × Json)
    (rest : List (String × Json)) :
    renderMembers ((k, v) :: f2 :: rest) =
      renderString k ++ ':' :: renderJson v ++ ',' :: renderMembers (f2 :: rest) := by
  rw [renderMembers]
  simp

theorem parse_render_all (fuel : Nat) :
    (∀ j tail, sizeJson j ≤ fuel →
      parseJson fuel (renderJson j ++ tail) = some (j, tail)) ∧
    (∀ es tail, sizeElems es ≤ fuel →
      parseElems fuel (renderElems es ++ ']' :: tail) = some (es, tail)) ∧
    (∀ fs tail, sizeMembers fs ≤ fuel →
      parseMembers fuel (renderMembers fs ++ '\x7d' :: tail) = some (fs, tail)) := by
  induction fuel with
  | zero =>
    refine ⟨fun j tail h => absurd h ?_, fun es tail h => absurd h ?_,
      fun fs tail h => absurd h ?_⟩
    · have := sizeJson_pos j; omega
    · have := sizeElems_pos es; omega
    · have := sizeMembers_pos fs; omega
  | succ f ih =>
    obtain ⟨ihJ, ihE, ihM⟩ := ih
    refine ⟨fun j tail h => ?_, fun es tail h => ?_, fun fs tail h => ?_⟩
    · cases j with
      | str s =>
        simp only [renderJson, renderString, List.cons_append, List.append_assoc,
          List.singleton_append]
        rw [parseJson.eq_def]
        simp [parseStringBody_escape, stringMk_toList]
      | arr es =>
        have hsub : sizeElems es ≤ f := by simp [sizeJson] at h; omega
        simp only [renderJson, List.cons_append, List.append_assoc, List.singleton_append]
        rw [parseJson.eq_def]
        simp [ihE es tail hsub]
      | obj fs =>
        have hsub : sizeMembers fs ≤ f := by simp [sizeJson] at h; omega
        simp only [renderJson, List.cons_append, List.append_assoc, List.singleton_append]
        rw [parseJson.eq_def]
        simp [ihM fs tail hsub]
    · cases es with
      | nil =>
        rw [renderElems, List.nil_append, parseElems.eq_def]
        simp
      | cons e es2 => cases es2 with
        | nil =>
          have hsub : sizeJson e ≤ f := by simp [sizeElems] at h; omega
          obtain ⟨cs, hr⟩ := renderJson_head e
          have hpj : parseJson f (renderHeadChar e :: (cs ++ ']' :: tail)) =
              some (e, ']' :: tail) := by
            rw [← List.cons_append, ← hr]
            exact ihJ e (']' :: tail) hsub
          rw [renderElems, hr, List.cons_append, parseElems.eq_def]
          simp [(renderHeadChar_ne e).1, hpj]
        | cons e2 rest =>
          have hsub1 : sizeJson e ≤ f := by simp [sizeElems] at h; omega
          have hsub2 : sizeElems (e2 :: rest) ≤ f := by
            simp [sizeElems] at h ⊢; omega
          obtain ⟨cs, hr⟩ := renderJson_head e
          have hpj : parseJson f
              (renderHeadChar e :: (cs ++ ',' :: (renderElems (e2 :: rest) ++ ']' :: tail))) =
              some (e, ',' :: (renderElems (e2 :: rest) ++ ']' :: tail)) := by
            rw [← List.cons_append, ← hr]
            exact ihJ e (',' :: (renderElems (e2 :: rest) ++ ']' :: tail)) hsub1
          rw [renderElems_cons_cons, List.append_assoc, List.cons_append, hr,
            List.cons_append, parseElems.eq_def]
          simp [(renderHeadChar_ne e).1, hpj, ihE (e2 :: rest) tail hsub2]
    · cases fs with
      | nil =>
        rw [renderMembers, List.nil_append, parseMembers.eq_def]
        simp
      | cons kv fs2 =>
        obtain ⟨k, v⟩ := kv
        cases fs2 with
        | nil =>
          have hsub : sizeJson v ≤ f := by simp [sizeMembers] at h; omega
          have hpj : parseJson f (renderJson v ++ '\x7d' :: tail) =
              some (v, '\x7d' :: tail) := ihJ v ('\x7d' :: tail) hsub
          rw [renderMembers, renderString]
          simp only [List.cons_append, List.append_assoc, List.singleton_append]
          rw [parseMembers.eq_def]
          simp [parseStringBody_escape, hpj, stringMk_toList]
        | cons f2 rest =>
          have hsub1 : sizeJson v ≤ f := by simp [sizeMembers] at h; omega
          have hsub2 : sizeMembers (f2 :: rest) ≤ f := by
            simp [sizeMembers] at h ⊢; omega
          have hpj : parseJson f
              (renderJson v ++ ',' :: (renderMembers (f2 :: rest) ++ '\x7d' :: tail)) =
              some (v, ',' :: (renderMembers (f2 :: rest) ++ '\x7d' :: tail)) :=
            ihJ v (',' :: (renderMembers (f2 :: rest) ++ '\x7d' :: tail)) hsub1
          rw [renderMembers_cons_cons, renderString]
          simp only [List.cons_append, List.append_assoc, List.singleton_append]
          rw [parseMembers.eq_def]
          simp [parseStringBody_escape, hpj, stringMk_toList,
            ihM (f2 :: rest) tail hsub2]

theorem parseJson_render (j : Json) (fuel : Nat) (tail : List Char)
    (h : sizeJson j ≤ fuel) :
    parseJson fuel (renderJson j ++ tail) = some (j, tail) :=
  (parse_render_all fuel).1 j tail h

theorem renderString_length (s : String) : 2 ≤ (renderString s).length := by
  simp [renderString]

theorem renderJson_length_pos (j : Json) : 1 ≤ (renderJson j).length := by
  obtain ⟨cs, hr⟩ := renderJson_head j
  rw [hr]
  simp

theorem size_le_render_all (n : Nat) :
    (∀ j, sizeJson j ≤ n → sizeJson j ≤ (renderJson j).length) ∧
    (∀ es, sizeElems es ≤ n → sizeElems es ≤ (renderElems es).length + 1) ∧
    (∀ fs, sizeMembers fs ≤ n → sizeMembers fs ≤ (renderMembers fs).length + 1) := by
  induction n with
  | zero =>
    refine ⟨fun j h => absurd h ?_, fun es h => absurd h ?_, fun fs h => absurd h ?_⟩
    · have := sizeJson_pos j; omega
    · have := sizeElems_pos es; omega
    · have := sizeMembers_pos fs; omega
  | succ n ih =>
    obtain ⟨ihJ, ihE, ihM⟩ := ih
    refine ⟨fun j h => ?_, fun es h => ?_, fun fs h => ?_⟩
    · cases j with
      | str s =>
        have := renderString_length s
        simp [sizeJson, renderJson]
        omega
      | arr es =>
        have hsub : sizeElems es ≤ n := by simp [sizeJson] at h; omega
        have := ihE es hsub
        simp [sizeJson, renderJson] at this ⊢
        omega
      | obj fs =>
        have hsub : sizeMembers fs ≤ n := by simp [sizeJson] at h; omega
        have := ihM fs hsub
        simp [sizeJson, renderJson] at this ⊢
        omega
    · cases es with
      | nil => simp [sizeElems, renderElems]
      | cons e rest =>
        have h1 : sizeJson e ≤ n := by simp [sizeElems] at h; omega
        have he := ihJ e h1
        have hL := renderJson_length_pos e
        cases rest with
        | nil =>
          simp [sizeElems, renderElems]
          omega
        | cons e2 rest2 =>
          have h2 : sizeElems (e2 :: rest2) ≤ n := by
            simp [sizeElems] at h ⊢
            omega
          have hr := ihE (e2 :: rest2) h2
          rw [renderElems_cons_cons]
          simp [sizeElems] at hr ⊢
          omega
    · cases fs with
      | nil => simp [sizeMembers, renderMembers]
      | cons kv rest =>
        obtain ⟨k, v⟩ := kv
        have h1 : sizeJson v ≤ n := by simp [sizeMembers] at h; omega
        have hv := ihJ v h1
        have hLs := renderString_length k
        cases rest with
        | nil =>
          simp [sizeMembers, renderMembers]
          omega
        | cons f2 rest2 =>
          have h2 : sizeMembers (f2 :: rest2) ≤ n := by
            simp [sizeMembers] at h ⊢
            omega
          have hr := ihM (f2 :: rest2) h2
          rw [renderMembers_cons_cons]
          simp [sizeMembers] at hr ⊢
          omega

theorem sizeJson_le_length (j : Json) : sizeJson j ≤ (renderJson j).length :=
  (size_le_render_all (sizeJson j)).1 j le_rfl

/-- Top-level JSON parse of a whole string: the parse must consume all
input.  The fuel is sufficient for any input produced by renderJson. -/
def parseJsonString (s : String) : Option Json :=
  match parseJson (s.length + 1) s.toList with
  | some (j, []) => some j
  | _ => none

theorem parseJsonString_render (j : Json) :
    parseJsonString (String.mk (renderJson j)) = some j := by
  have hp := parseJson_render j ((renderJson j).length + 1) []
    (by have := sizeJson_le_length j; omega)
  rw [List.append_nil] at hp
  unfold parseJsonString
  have htl : (String.mk (renderJson j)).toList = renderJson j := rfl
  have hlen : (String.mk (renderJson j)).length = (renderJson j).length := rfl
  rw [htl, hlen, hp]

/-- Modelled from the spec: the route of the structured alerting
configuration (receiver name and grouping labels); the full
apimodels.PostableApiAlertingConfig lives outside the sampled source. -/
structure Route where
  receiver : String
  groupBy : List String
deriving DecidableEq, Repr

/-- Modelled from the spec: a named receiver of the alerting configuration. -/
structure Receiver where
  name : String
deriving DecidableEq, Repr

/-- Modelled from the spec: minimal structured alerting configuration
(apimodels.PostableApiAlertingConfig), a route plus receivers. -/
structure PostableApiAlertingConfig where
  route : Route
  receivers : List Receiver
deriving DecidableEq, Repr

/-- Modelled from the spec: apimodels.PostableUserConfig, the configuration
document: template-file mapping plus structured alerting configuration. -/
structure PostableUserConfig where
  templateFiles : List (String × String)
  alertmanagerConfig : PostableApiAlertingConfig
deriving DecidableEq, Repr

/-- JSON encoding of a route. -/
def marshalRoute (r : Route) : Json :=
  .obj [("receiver", .str r.receiver), ("group_by", .arr (r.groupBy.map Json.str))]

/-- JSON encoding of a receiver. -/
def marshalReceiver (rcv : Receiver) : Json :=
  .obj [("name", .str rcv.name)]

/-- JSON encoding of the structured alerting configuration. -/
def marshalAlertingConfig (c : PostableApiAlertingConfig) : Json :=
  .obj [("route", marshalRoute c.route),
        ("receivers", .arr (c.receivers.map marshalReceiver))]

/-- Field lookup in a JSON object. -/
def jsonField (j : Json) (key : String) : Option Json :=
  match j with
  | .obj fields => (fields.find? (fun f => f.1 == key)).map Prod.snd
  | _ => none

/-- Decode a JSON string value. -/
def unmarshalString : Json → Option String
  | .str s => some s
  | _ => none

/-- Decode each element of a JSON array, failing if any element fails. -/
def unmarshalList {α : Type} (f : Json → Option α) : List Json → Option (List α)
  | [] => some []
  | j :: js =>
    match f j with
    | none => none
    | some a =>
      match unmarshalList f js with
      | none => none
      | some rest => some (a :: rest)

/-- Decode a JSON array of strings. -/
def unmarshalStringList : Json → Option (List String)
  | .arr es => unmarshalList unmarshalString es
  | _ => none

/-- Decode a route. -/
def unmarshalRoute (j : Json) : Option Route := do
  let receiver ← jsonField j "receiver" >>= unmarshalString
  let groupBy ← jsonField j "group_by" >>= unmarshalStringList
  pure ⟨receiver, groupBy⟩

/-- Decode a receiver. -/
def unmarshalReceiver (j : Json) : Option Receiver := do
  let name ← jsonField j "name" >>= unmarshalString
  pure ⟨name⟩

/-- Decode the structured alerting configuration. -/
def unmarshalAlertingConfig (j : Json) : Option PostableApiAlertingConfig := do
  let route ← jsonField j "route" >>= unmarshalRoute
  let receiversJson ← jsonField j "receivers"
  match receiversJson with
  | .arr es => do
    let receivers ← unmarshalList unmarshalReceiver es
    pure ⟨route, receivers⟩
  | _ => none

theorem unmarshalRoute_marshal (r : Route) :
    unmarshalRoute (marshalRoute r) = some r := by
  obtain ⟨receiver, groupBy⟩ := r
  have hmap : unmarshalList unmarshalString (groupBy.map Json.str) = some groupBy := by
    induction groupBy with
    | nil => simp [unmarshalList]
    | cons g gs ih => simp [unmarshalList, unmarshalString, ih]
  simp [unmarshalRoute, marshalRoute, jsonField, unmarshalString,
    unmarshalStringList, hmap]

theorem unmarshalAlertingConfig_marshal (c : PostableApiAlertingConfig) :
    unmarshalAlertingConfig (marshalAlertingConfig c) = some c := by
  obtain ⟨route, receivers⟩ := c
  have hmap : unmarshalList unmarshalReceiver (receivers.map marshalReceiver) =
      some receivers := by
    induction receivers with
    | nil => simp [unmarshalList]
    | cons rc rcs ih =>
      simp [unmarshalList, unmarshalReceiver, marshalReceiver, jsonField,
        unmarshalString, ih]
  simp [unmarshalAlertingConfig, marshalAlertingConfig, jsonField,
    unmarshalRoute_marshal, hmap]

/-- Decode the members of a JSON object as a string-to-string mapping. -/
def unmarshalStringPairs : List (String × Json) → Option (List (String × String))
  | [] => some []
  | (k, v) :: rest =>
    match unmarshalString v with
    | none => none
    | some s =>
      match unmarshalStringPairs rest with
      | none => none
      | some tailPairs => some ((k, s) :: tailPairs)

/-- Decode a template-file mapping (Go map of string to string). -/
def unmarshalTemplateFiles : Json → Option (List (String × String))
  | .obj fields => unmarshalStringPairs fields
  | _ => none

/-- JSON encoding of a template-file mapping. -/
def marshalTemplateFiles (tf : List (String × String)) : Json :=
  .obj (tf.map (fun kv => (kv.1, Json.str kv.2)))

theorem unmarshalTemplateFiles_marshal (tf : List (String × String)) :
    unmarshalTemplateFiles (marshalTemplateFiles tf) = some tf := by
  induction tf with
  | nil => simp [marshalTemplateFiles, unmarshalTemplateFiles, unmarshalStringPairs]
  | cons kv rest ih =>
    obtain ⟨k, v⟩ := kv
    simp [marshalTemplateFiles, unmarshalTemplateFiles, unmarshalStringPairs,
      unmarshalString] at ih ⊢
    rw [ih]

/-- Embedding of json.Marshal on the structured alerting configuration
(the string stored in the grafana_alertmanager_config envelope field). -/
def jsonMarshalAlertingConfig (c : PostableApiAlertingConfig) : String :=
  String.mk (renderJson (marshalAlertingConfig c))

/-- Embedding of json.Unmarshal of a string into the structured alerting
configuration (the second decode of the pull path). -/
def jsonUnmarshalAlertingConfig (s : String) : Option PostableApiAlertingConfig :=
  (parseJsonString s).bind unmarshalAlertingConfig

theorem jsonUnmarshalAlertingConfig_marshal (c : PostableApiAlertingConfig) :
    jsonUnmarshalAlertingConfig (jsonMarshalAlertingConfig c) = some c := by
  rw [jsonUnmarshalAlertingConfig, jsonMarshalAlertingConfig,
    parseJsonString_render]
  simp [unmarshalAlertingConfig_marshal]

/-- An HTTP response from the remote backend, as data: the status code and
the (fully read) body. -/
structure HttpResponse where
  status : Nat
  body : String
deriving DecidableEq, Repr

/-- The URL used by both postConfig and getConfig: the base URL with a
trailing /alertmanager suffix stripped, plus the configured endpoint. -/
def configURL (am : Alertmanager) : String :=
  trimSuffix am.url "/alertmanager" ++ am.configEndpoint

/-- The anonymous envelope struct marshaled by postConfig: the template
files plus the alerting configuration serialized as a nested JSON string. -/
def postConfigBodyJson (cfg : PostableUserConfig) : Json :=
  .obj [("template_files", marshalTemplateFiles cfg.templateFiles),
        ("grafana_alertmanager_config",
          .str (jsonMarshalAlertingConfig cfg.alertmanagerConfig))]

/-- The POST body string sent by postConfig. -/
def postConfigBody (cfg : PostableUserConfig) : String :=
  String.mk (renderJson (postConfigBodyJson cfg))

/-- Errors of postConfig: a request-building or transport failure, or a
non-201 status (the error message carries the status code). -/
inductive PostConfigError where
  | network (msg : String)
  | unexpectedStatus (code : Nat)
deriving DecidableEq, Repr

/-- Embedding of postConfig.  Marshaling the envelope is total in the model;
the request sends postConfigBody cfg to configURL am, and `doResult` is the
outcome of the transport (request creation and Do failures share the network
error).  The source checks the 201 status twice (the second check, after
reading the body, is unreachable); the body of a 201 response is read and
discarded. -/
def postConfig (am : Alertmanager) (cfg : PostableUserConfig)
    (doResult : Except String HttpResponse) : Except PostConfigError Unit :=
  match doResult with
  | .error msg => .error (.network msg)
  | .ok res =>
    if res.status ≠ 201 then .error (.unexpectedStatus res.status)
    else
      if res.status ≠ 201 then .error (.unexpectedStatus res.status)
      else .ok ()

/-- Errors of getConfig: transport failure, the distinct config-not-found
error for 404, the generic non-200 failure carrying the status code, and the
two unmarshal failures. -/
inductive GetConfigError where
  | network (msg : String)
  | notFound
  | unexpectedStatus (code : Nat)
  | bodyDecode
  | innerDecode
deriving DecidableEq, Repr

/-- Decode the pull response body: the outer JSON document with a data field
holding the template files and the alerting configuration as a string.
Missing or mistyped fields are treated as a decode failure. -/
def unmarshalConfigBody (body : String) : Option (List (String × String) × String) :=
  match parseJsonString body with
  | none => none
  | some j =>
    match jsonField j "data" with
    | none => none
    | some dataJson =>
      match jsonField dataJson "template_files" with
      | none => none
      | some tfJson =>
        match unmarshalTemplateFiles tfJson with
        | none => none
        | some tf =>
          match jsonField dataJson "grafana_alertmanager_config" with
          | none => none
          | some amJson =>
            match unmarshalString amJson with
            | none => none
            | some amStr => some (tf, amStr)

/-- Embedding of getConfig: GET configURL, demand 200 (404 maps to the
distinct not-found error, anything else to a generic failure with the status
code), decode the outer body, then decode the nested JSON string a second
time into the structured configuration. -/
def getConfig (am : Alertmanager) (doResult : Except String HttpResponse) :
    Except GetConfigError PostableUserConfig :=
  match doResult with
  | .error msg => .error (.network msg)
  | .ok res =>
    if res.status ≠ 200 then
      if res.status = 404 then .error .notFound
      else .error (.unexpectedStatus res.status)
    else
      match unmarshalConfigBody res.body with
      | none => .error .bodyDecode
      | some (templateFiles, amStr) =>
        match jsonUnmarshalAlertingConfig amStr with
        | none => .error .innerDecode
        | some amConfig => .ok ⟨templateFiles, amConfig⟩

/-- Modelled from the spec: ngmodels.AlertConfigurationVersion, the constant
behind the version tag of persisted configurations. -/
def alertConfigurationVersion : Nat := 1

/-- The SaveAlertmanagerConfigurationCmd persisted by saveConfig. -/
structure SaveAlertmanagerConfigurationCmd where
  alertmanagerConfiguration : String
  configurationVersion : String
  orgID : Int
  lastApplied : Int
deriving DecidableEq, Repr

/-- Embedding of json.Marshal on the whole configuration document, as
persisted locally by saveConfig. -/
def jsonMarshalUserConfig (cfg : PostableUserConfig) : String :=
  String.mk (renderJson (.obj
    [("template_files", marshalTemplateFiles cfg.templateFiles),
     ("alertmanager_config", marshalAlertingConfig cfg.alertmanagerConfig)]))

/-- Embedding of saveConfig: marshal the document (total in the model) and
hand the stamped command to the configuration store.  The store is an
external collaborator: `storeResult` is the outcome of its write and `store`
is its state, modelled as the list of saved commands. -/
def saveConfig (am : Alertmanager) (cfg : PostableUserConfig)
    (store : List SaveAlertmanagerConfigurationCmd) (nowUnix : Int)
    (storeResult : Option String) :
    Except String Unit × List SaveAlertmanagerConfigurationCmd :=
  let cmd : SaveAlertmanagerConfigurationCmd :=
    { alertmanagerConfiguration := jsonMarshalUserConfig cfg
      configurationVersion := "v" ++ toString alertConfigurationVersion
      orgID := am.orgID
      lastApplied := nowUnix }
  match storeResult with
  | some msg => (.error msg, store)
  | none => (.ok (), store ++ [cmd])

/-- Errors of SaveAndApplyConfig. -/
inductive SaveAndApplyError where
  | postError (e : PostConfigError)
  | storeError (msg : String)
deriving DecidableEq, Repr

/-- Embedding of SaveAndApplyConfig: push the configuration first; only if
the push succeeds, persist it locally. -/
def SaveAndApplyConfig (am : Alertmanager) (cfg : PostableUserConfig)
    (postResult : Except String HttpResponse)
    (store : List SaveAlertmanagerConfigurationCmd) (nowUnix : Int)
    (storeResult : Option String) :
    Except SaveAndApplyError Unit × List SaveAlertmanagerConfigurationCmd :=
  match postConfig am cfg postResult with
  | .error e => (.error (.postError e), store)
  | .ok () =>
    match saveConfig am cfg store nowUnix storeResult with
    | (.error msg, store2) => (.error (.storeError msg), store2)
    | (.ok (), store2) => (.ok (), store2)

/-- Errors of SaveAndApplyDefaultConfig. -/
inductive SaveDefaultError where
  | getError (e : GetConfigError)
  | storeError (msg : String)
deriving DecidableEq, Repr

/-- Embedding of SaveAndApplyDefaultConfig: pull whatever the remote backend
currently applies and persist it locally. -/
def SaveAndApplyDefaultConfig (am : Alertmanager)
    (doResult : Except String HttpResponse)
    (store : List SaveAlertmanagerConfigurationCmd) (nowUnix : Int)
    (storeResult : Option String) :
    Except SaveDefaultError Unit × List SaveAlertmanagerConfigurationCmd :=
  match getConfig am doResult with
  | .error e => (.error (.getError e), store)
  | .ok cfg =>
    match saveConfig am cfg store nowUnix storeResult with
    | (.error msg, store2) => (.error (.storeError msg), store2)
    | (.ok (), store2) => (.ok (), store2)

/-- Minimal model of a postable alert. -/
structure PostableAlert where
  labels : List (String × String)
deriving DecidableEq, Repr

/-- Minimal model of apimodels.PostableAlerts. -/
structure PostableAlerts where
  postableAlerts : List PostableAlert
deriving DecidableEq, Repr

/-- Calls the facade makes into the alerts sender. -/
inductive SenderEffect where
  | sendAlerts (alerts : PostableAlerts)
deriving DecidableEq, Repr

/-- Embedding of PutAlerts: log, hand the batch to sender.SendAlerts, and
return nil unconditionally. -/
def PutAlerts (am : Alertmanager) (alerts : PostableAlerts) :
    Option String × List SenderEffect :=
  (none, [.sendAlerts alerts])

/-- One public operation of the gateway facade, together with the oracle
outcomes of the external calls it makes. -/
inductive GatewayOp where
  | applyConfig (probe : Except String ProbeResponse) (count : Nat → Nat) (fuel : Nat)
  | saveAndApplyConfig (cfg : PostableUserConfig)
      (postResult : Except String HttpResponse) (nowUnix : Int)
      (storeResult : Option String)
  | saveAndApplyDefaultConfig (doResult : Except String HttpResponse)
      (nowUnix : Int) (storeResult : Option String)
  | createSilence (call : BindingOutcome String)
  | deleteSilence (call : BindingOutcome Unit)
  | getSilence (call : BindingOutcome GettableSilence)
  | listSilences (call : BindingOutcome (List GettableSilence))
  | getAlerts (call : BindingOutcome (List GettableAlert))
  | getAlertGroups (call : BindingOutcome (List AlertGroup))
  | putAlerts (alerts : PostableAlerts)
  | getStatus
  | getReceivers (call : BindingOutcome (List Receiver))
  | testReceivers
  | testTemplate
  | stopAndWait
  | cleanUp
  | ready

/-- Effect of one facade operation on the gateway state.  In the source the
only method that assigns any field of the Alertmanager struct is
checkReadiness (through ApplyConfig), which sets ready to true; every other
method leaves the receiver untouched. -/
def opStep (am : Alertmanager) (op : GatewayOp) : Alertmanager :=
  match op with
  | .applyConfig probe count fuel =>
    match ApplyConfig am probe count fuel with
    | some (.ok am2) => am2
    | _ => am
  | _ => am

/-- Header lookup after setting the same key. -/
theorem headerGet_headerSet_same (hs : List (String × String)) (k v : String) :
    headerGet (headerSet hs k v) k = some v := by
  simp [headerGet, headerSet]

theorem find?_filter_ne (l : List (String × String)) (k k2 : String)
    (h : k2 ≠ k) :
    List.find? (fun kv => kv.1 == k2) (List.filter (fun kv => kv.1 ≠ k) l) =
    List.find? (fun kv => kv.1 == k2) l := by
  rw [List.find?_filter]
  congr 1
  funext a
  by_cases ha : a.1 = k2
  · simp [ha]
    exact h
  · simp [ha]

/-- Header lookup after setting a different key. -/
theorem headerGet_headerSet_other (hs : List (String × String)) (k v k2 : String)
    (h : k2 ≠ k) :
    headerGet (headerSet hs k v) k2 = headerGet hs k2 := by
  simp only [headerGet, headerSet]
  rw [List.find?_cons_of_neg _ (by simp [Ne.symm h]), find?_filter_ne hs k k2 h]

/-- A sample gateway state used by concrete witnesses. -/
def sampleAm : Alertmanager :=
  { orgID := 1, tenantID := "t1", url := "http://localhost:9009/alertmanager",
    configEndpoint := "/api/v1/alerts", ready := false }

/-- The sample gateway after the readiness flag has been set. -/
def sampleAmReady : Alertmanager := { sampleAm with ready := true }

/-- A sample configuration document used by concrete witnesses. -/
def sampleConfig : PostableUserConfig :=
  { templateFiles := [("t1", "\x7b\x7b .Alert \x7d\x7d")],
    alertmanagerConfig :=
      { route := { receiver := "grafana-default-email", groupBy := ["alertname"] },
        receivers := [{ name := "grafana-default-email" }] } }

/-- The ticker always beats the per-iteration deadline timer, because the
deadline channel is recreated on every select iteration: the loop can never
take the deadline branch, whatever the target counts are. -/
theorem senderWaitLoop_never_deadline (count : Nat → Nat) :
    ∀ fuel attempts entry, senderWaitLoop count attempts entry fuel ≠ some .deadline := by
  intro fuel
  induction fuel with
  | zero =>
    intro attempts entry
    simp [senderWaitLoop]
  | succ f ih =>
    intro attempts entry
    rw [senderWaitLoop, if_pos (by unfold tickerInterval senderStartTimeout; omega)]
    by_cases hc : 0 < count (attempts + 1)
    · simp [hc]
    · simp [hc]
      exact ih (attempts + 1) (entry + tickerInterval)

/-- When the sender never reports a target, the wait loop does not return
within any number of select iterations. -/
theorem senderWaitLoop_zero_count_none :
    ∀ fuel attempts entry, senderWaitLoop (fun _ => 0) attempts entry fuel = none := by
  intro fuel
  induction fuel with
  | zero =>
    intro attempts entry
    rfl
  | succ f ih =>
    intro attempts entry
    rw [senderWaitLoop, if_pos (by unfold tickerInterval senderStartTimeout; omega)]
    simp
    exact ih (attempts + 1) (entry + tickerInterval)

/-- C1: the claim is FALSE on the code and the code is the bug.  The source
arms time.After(senderStartTimeout) inside the select loop, so a fresh
10-second timer is created on every iteration while the ticker fires every
100 ms; the deadline branch is therefore unreachable, and when the probe
returns 200 but the dispatcher never reports a target, checkReadiness never
returns at all (first conjunct: no number of select iterations makes it
return), let alone within 10 seconds with NotReadyError (second conjunct:
the deadline branch that returns ErrAlertmanagerNotReady can never be
taken). -/
theorem checkReadiness_no_target_never_returns (am : Alertmanager)
    (res : ProbeResponse) (hstatus : res.status = 200) :
    (∀ fuel, checkReadiness am (.ok res) (fun _ => 0) fuel = none) ∧
    (∀ count attempts entry fuel,
      senderWaitLoop count attempts entry fuel ≠ some LoopOutcome.deadline) := by
  constructor
  · intro fuel
    simp [checkReadiness, hstatus, senderWaitLoop_zero_count_none]
  · intro count attempts entry fuel
    exact senderWaitLoop_never_deadline count fuel attempts entry

/-- C1 witness: concrete evaluation at the failing input (probe 200, zero
targets, 1000 select iterations: still no return). -/
theorem checkReadiness_no_target_witness :
    checkReadiness sampleAm (.ok ⟨200⟩) (fun _ => 0) 1000 = none ∧
    senderWaitLoop (fun _ => 1) 0 0 5 ≠ some LoopOutcome.deadline :=
  ⟨(checkReadiness_no_target_never_returns sampleAm ⟨200⟩ rfl).1 1000,
   (checkReadiness_no_target_never_returns sampleAm ⟨200⟩ rfl).2 (fun _ => 1) 0 0 5⟩

/-- C2 counterexample: the claim demands a NON-NIL error after a caught
fault, but the relay methods have unnamed result parameters, so after
recover the caller receives the zero values: a nil error.  Concrete input:
CreateSilence whose binding call panics. -/
theorem createSilence_panic_nil_error :
    (CreateSilence (.panicked "runtime error: invalid memory address")).goErr
      = none ∧
    (CreateSilence (.panicked "runtime error: invalid memory address")).panicsLogged
      = ["Panic while creating silence: runtime error: invalid memory address"] :=
  ⟨rfl, rfl⟩

/-- C2 amended: every relay call wraps the binding call in a recover
boundary; a fault is caught and logged and the call returns normally (the
fault never escapes), but the caller receives the zero-value results with a
NIL error, not a non-nil one. -/
theorem relay_panic_caught_logged_nil_error (msg : String) :
    CreateSilence (.panicked msg) =
      ⟨"", none, ["Panic while creating silence: " ++ msg]⟩ ∧
    DeleteSilence (.panicked msg) =
      ⟨(), none, ["Panic while deleting silence: " ++ msg]⟩ ∧
    GetSilence (.panicked msg) =
      ⟨⟨""⟩, none, ["Panic while getting silence: " ++ msg]⟩ ∧
    ListSilences (.panicked msg) =
      ⟨[], none, ["Panic while listing silences: " ++ msg]⟩ ∧
    GetAlerts (.panicked msg) =
      ⟨[], none, ["Panic while getting alerts: " ++ msg]⟩ ∧
    GetAlertGroups (.panicked msg) =
      ⟨[], none, ["Panic while getting alert groups: " ++ msg]⟩ :=
  ⟨rfl, rfl, rfl, rfl, rfl, rfl⟩

/-- C10: PutAlerts hands the batch to the sender and returns a nil error for
every batch, whatever the state of the remote backend. -/
theorem putAlerts_always_nil (am : Alertmanager) (alerts : PostableAlerts) :
    (PutAlerts am alerts).1 = none ∧
    (PutAlerts am alerts).2 = [SenderEffect.sendAlerts alerts] :=
  ⟨rfl, rfl⟩

/-- A successful checkReadiness result is exactly the input gateway with the
ready flag set. -/
theorem checkReadiness_ok_shape (am : Alertmanager) (probe : Except String ProbeResponse)
    (count : Nat → Nat) (fuel : Nat) (am2 : Alertmanager)
    (h : checkReadiness am probe count fuel = some (.ok am2)) :
    am2 = { am with ready := true } := by
  unfold checkReadiness at h
  cases probe with
  | error msg => simp at h
  | ok res =>
    by_cases hs : res.status ≠ 200
    · simp [hs] at h
    · simp [hs] at h
      cases hw : senderWaitLoop count 0 0 fuel with
      | none => rw [hw] at h; simp at h
      | some out =>
        rw [hw] at h
        cases out with
        | success n => simp at h; exact h.symm
        | deadline => simp at h

/-- C4: the readiness flag is one-way.  Every facade operation either leaves
the gateway state unchanged or (only ApplyConfig, only from NotReady) sets
ready to true; and once ready, every operation is state-preserving and
ApplyConfig is an immediate no-op success independent of the probe, the
target counts and the loop fuel (so no probe or polling can be consulted). -/
theorem ready_one_way (am : Alertmanager) (op : GatewayOp) :
    (opStep am op = am ∨
      (am.ready = false ∧ opStep am op = { am with ready := true })) ∧
    (am.ready = true →
      opStep am op = am ∧
      ∀ probe count fuel, ApplyConfig am probe count fuel = some (.ok am)) := by
  constructor
  · cases op with
    | applyConfig probe count fuel =>
      by_cases hr : am.ready
      · left
        simp [opStep, ApplyConfig, hr]
      · simp only [opStep, ApplyConfig]
        rw [if_neg hr]
        cases hc : checkReadiness am probe count fuel with
        | none => left; rfl
        | some r =>
          cases r with
          | ok am2 =>
            right
            refine ⟨by simpa using hr, ?_⟩
            simp [checkReadiness_ok_shape am probe count fuel am2 hc]
          | error e => left; rfl
    | _ => exact Or.inl rfl
  · intro hready
    constructor
    · cases op with
      | applyConfig probe count fuel => simp [opStep, ApplyConfig, hready]
      | _ => rfl
    · intro probe count fuel
      simp [ApplyConfig, hready]

/-- C4 witness: a ready gateway is untouched by an operation, and ApplyConfig
on it succeeds immediately even when the probe oracle would fail. -/
theorem ready_one_way_witness :
    opStep sampleAmReady GatewayOp.stopAndWait = sampleAmReady ∧
    ApplyConfig sampleAmReady (.error "connection refused") (fun _ => 0) 3 =
      some (.ok sampleAmReady) := by
  have h := (ready_one_way sampleAmReady GatewayOp.stopAndWait).2 rfl
  exact ⟨h.1, h.2 (.error "connection refused") (fun _ => 0) 3⟩

/-- C3 counterexample: a non-empty URL for which construction still fails.
Go url.Parse rejects the non-empty URL consisting of a bare percent sign
(invalid URL escape), so NewAlertmanager returns that error rather than a
gateway; the claim that construction with ANY non-empty URL succeeds is
false. -/
theorem newAlertmanager_nonempty_url_can_fail :
    NewAlertmanager
      { URL := "%", TenantID := "t1", BasicAuthPassword := "",
        ConfigEndpoint := "" } 1
      (.error "parse \"%\": invalid URL escape \"%\"") (.ok ()) =
      .error (.urlParseError "parse \"%\": invalid URL escape \"%\"") := rfl

/-- C3 amended: construction with an empty URL always fails with the
configuration error, whatever the collaborator oracles would return (the
check precedes any network call); construction with a non-empty URL that
url.Parse accepts and for which the sender configuration succeeds yields a
gateway with ready false and the defaulted config endpoint. -/
theorem newAlertmanager_construction (cfg : AlertmanagerConfig) (orgID : Int) :
    (cfg.URL = "" → ∀ urlParse senderApply,
      NewAlertmanager cfg orgID urlParse senderApply =
        .error (.emptyURL cfg.TenantID)) ∧
    (cfg.URL ≠ "" →
      NewAlertmanager cfg orgID (.ok ()) (.ok ()) =
        .ok { orgID := orgID, tenantID := cfg.TenantID, url := cfg.URL,
              configEndpoint :=
                if cfg.ConfigEndpoint = "" then defaultConfigEndpoint
                else cfg.ConfigEndpoint,
              ready := false }) := by
  constructor
  · intro h urlParse senderApply
    simp [NewAlertmanager, h]
  · intro h
    simp [NewAlertmanager, h]

/-- C3 witness: the empty URL fails, and a concrete non-empty URL succeeds
with a NotReady gateway. -/
theorem newAlertmanager_witness :
    NewAlertmanager
      { URL := "", TenantID := "t1", BasicAuthPassword := "p1",
        ConfigEndpoint := "" } 1 (.ok ()) (.ok ()) =
      .error (.emptyURL "t1") ∧
    NewAlertmanager
      { URL := "http://localhost:9009/alertmanager", TenantID := "t1",
        BasicAuthPassword := "p1", ConfigEndpoint := "" } 1 (.ok ()) (.ok ()) =
      .ok { orgID := 1, tenantID := "t1",
            url := "http://localhost:9009/alertmanager",
            configEndpoint := defaultConfigEndpoint, ready := false } := by
  constructor
  · exact (newAlertmanager_construction
      { URL := "", TenantID := "t1", BasicAuthPassword := "p1",
        ConfigEndpoint := "" } 1).1 rfl (.ok ()) (.ok ())
  · have h := (newAlertmanager_construction
      { URL := "http://localhost:9009/alertmanager", TenantID := "t1",
        BasicAuthPassword := "p1", ConfigEndpoint := "" } 1).2 (by simp)
    simpa using h

/-- C5: every outbound request receives the tenant-scope header set to the
tenant id; for a request without a pre-existing Authorization header, basic
auth credentials (username tenant id, password the secret) are present after
the round trip exactly when both the tenant id and the secret are
non-empty. -/
theorem roundTrip_headers (r : roundTripper) (headers : List (String × String))
    (hnoauth : headerGet headers "Authorization" = none) :
    headerGet (RoundTrip r headers) "X-Scope-OrgID" = some r.tenantID ∧
    (headerGet (RoundTrip r headers) "Authorization" ≠ none ↔
      (r.tenantID ≠ "" ∧ r.basicAuthPassword ≠ "")) ∧
    ((r.tenantID ≠ "" ∧ r.basicAuthPassword ≠ "") →
      headerGet (RoundTrip r headers) "Authorization" =
        some (basicAuthHeaderValue r.tenantID r.basicAuthPassword)) := by
  by_cases hb : r.tenantID ≠ "" ∧ r.basicAuthPassword ≠ ""
  · have hauth : headerGet (RoundTrip r headers) "Authorization" =
        some (basicAuthHeaderValue r.tenantID r.basicAuthPassword) := by
      simp only [RoundTrip]
      rw [if_pos hb]
      exact headerGet_headerSet_same _ _ _
    refine ⟨?_, ?_, fun _ => hauth⟩
    · simp only [RoundTrip]
      rw [if_pos hb,
        headerGet_headerSet_other _ _ _ _ (by decide)]
      exact headerGet_headerSet_same _ _ _
    · rw [hauth]
      simp [hb]
  · have hauth : headerGet (RoundTrip r headers) "Authorization" = none := by
      simp only [RoundTrip]
      rw [if_neg hb,
        headerGet_headerSet_other _ _ _ _ (by decide)]
      exact hnoauth
    refine ⟨?_, ?_, fun hcontra => absurd hcontra hb⟩
    · simp only [RoundTrip]
      rw [if_neg hb]
      exact headerGet_headerSet_same _ _ _
    · rw [hauth]
      simp [hb]

/-- C5 witness: with tenant t1 and secret p1 the scope header and the basic
auth header are both present; with an empty tenant id and the same secret no
Authorization header is added. -/
theorem roundTrip_witness :
    headerGet (RoundTrip ⟨"t1", "p1"⟩ []) "X-Scope-OrgID" = some "t1" ∧
    headerGet (RoundTrip ⟨"t1", "p1"⟩ []) "Authorization" =
      some (basicAuthHeaderValue "t1" "p1") ∧
    headerGet (RoundTrip ⟨"", "p1"⟩ []) "Authorization" = none := by
  refine ⟨(roundTrip_headers ⟨"t1", "p1"⟩ [] rfl).1,
    (roundTrip_headers ⟨"t1", "p1"⟩ [] rfl).2.2 (by simp), ?_⟩
  have h := (roundTrip_headers ⟨"", "p1"⟩ [] rfl).2.1
  exact not_ne_iff.mp (fun hne => absurd (h.mp hne).1 (by simp))

/-- A pull response body that echoes exactly the envelope pushed by
postConfig, wrapped in the data field of the pull schema. -/
def echoPullBody (cfg : PostableUserConfig) : String :=
  String.mk (renderJson (.obj [("data", postConfigBodyJson cfg)]))

/-- C6: encoding a configuration document for push (with the structured
configuration serialized to a JSON string nested inside the envelope) and
then decoding a pull response that echoes the same envelope (including the
second decode of the nested string) reconstructs the document
field-for-field. -/
theorem config_push_pull_roundtrip (am : Alertmanager) (cfg : PostableUserConfig) :
    getConfig am (.ok { status := 200, body := echoPullBody cfg }) = .ok cfg := by
  obtain ⟨tf, amc⟩ := cfg
  have hbody : unmarshalConfigBody (echoPullBody ⟨tf, amc⟩) =
      some (tf, jsonMarshalAlertingConfig amc) := by
    unfold unmarshalConfigBody echoPullBody
    rw [parseJsonString_render]
    simp [postConfigBodyJson, jsonField, unmarshalTemplateFiles_marshal,
      unmarshalString]
  simp [getConfig, hbody, jsonUnmarshalAlertingConfig_marshal]

/-- C7: the pull succeeds only on HTTP 200; a 404 yields the distinct
not-found error; any other non-200 status yields the generic failure
carrying the status code. -/
theorem getConfig_status_handling (am : Alertmanager) (res : HttpResponse) :
    ((∃ cfg, getConfig am (.ok res) = .ok cfg) → res.status = 200) ∧
    (res.status = 404 → getConfig am (.ok res) = .error .notFound) ∧
    (res.status ≠ 200 → res.status ≠ 404 →
      getConfig am (.ok res) = .error (.unexpectedStatus res.status)) := by
  refine ⟨?_, ?_, ?_⟩
  · rintro ⟨cfg, hcfg⟩
    by_contra hs
    by_cases h4 : res.status = 404
    · simp [getConfig, hs, h4] at hcfg
    · simp [getConfig, hs, h4] at hcfg
  · intro h4
    simp [getConfig, h4]
  · intro hs h4
    simp [getConfig, hs, h4]

/-- C7 witness: a 404 pull gives the distinct not-found error and a 500 pull
gives the generic failure carrying 500. -/
theorem getConfig_status_witness :
    getConfig sampleAm (.ok ⟨404, ""⟩) = .error .notFound ∧
    getConfig sampleAm (.ok ⟨500, "oops"⟩) = .error (.unexpectedStatus 500) :=
  ⟨(getConfig_status_handling sampleAm ⟨404, ""⟩).2.1 rfl,
   (getConfig_status_handling sampleAm ⟨500, "oops"⟩).2.2 (by simp) (by simp)⟩

/-- C8: the push succeeds exactly when the backend responds 201; any other
status is a failure carrying that status code, and a transport failure is
returned as a network error. -/
theorem postConfig_status_handling (am : Alertmanager) (cfg : PostableUserConfig)
    (res : HttpResponse) :
    (postConfig am cfg (.ok res) = .ok () ↔ res.status = 201) ∧
    (res.status ≠ 201 →
      postConfig am cfg (.ok res) = .error (.unexpectedStatus res.status)) ∧
    (∀ msg, postConfig am cfg (.error msg) = .error (.network msg)) := by
  refine ⟨⟨?_, ?_⟩, ?_, fun msg => rfl⟩
  · intro h
    by_contra hs
    simp [postConfig, hs] at h
  · intro hs
    simp [postConfig, hs]
  · intro hs
    simp [postConfig, hs]

/-- C8 witness: 201 succeeds, 400 fails carrying 400. -/
theorem postConfig_status_witness :
    postConfig sampleAm sampleConfig (.ok ⟨201, ""⟩) = .ok () ∧
    postConfig sampleAm sampleConfig (.ok ⟨400, ""⟩) =
      .error (.unexpectedStatus 400) :=
  ⟨(postConfig_status_handling sampleAm sampleConfig ⟨201, ""⟩).1.mpr rfl,
   (postConfig_status_handling sampleAm sampleConfig ⟨400, ""⟩).2.1 (by simp)⟩

/-- C9: save-and-apply pushes first; if the push fails the local store is
untouched (whatever the store oracle would have answered), and only after a
successful push is the document persisted, stamped with the version tag and
the last-applied timestamp. -/
theorem saveAndApply_push_then_persist (am : Alertmanager)
    (cfg : PostableUserConfig) (postResult : Except String HttpResponse)
    (store : List SaveAlertmanagerConfigurationCmd) (nowUnix : Int) :
    (∀ e storeResult, postConfig am cfg postResult = .error e →
      SaveAndApplyConfig am cfg postResult store nowUnix storeResult =
        (.error (.postError e), store)) ∧
    (postConfig am cfg postResult = .ok () →
      SaveAndApplyConfig am cfg postResult store nowUnix none =
        (.ok (), store ++
          [{ alertmanagerConfiguration := jsonMarshalUserConfig cfg,
             configurationVersion := "v" ++ toString alertConfigurationVersion,
             orgID := am.orgID, lastApplied := nowUnix }])) := by
  constructor
  · intro e storeResult h
    simp [SaveAndApplyConfig, h]
  · intro h
    simp [SaveAndApplyConfig, h, saveConfig]

/-- C9 witness: with a 201 push the document is persisted with its stamps;
with a 500 push the store stays empty and the push error is returned. -/
theorem saveAndApply_witness :
    SaveAndApplyConfig sampleAm sampleConfig (.ok ⟨201, ""⟩) [] 1700000000 none =
      (.ok (), [{ alertmanagerConfiguration := jsonMarshalUserConfig sampleConfig,
                  configurationVersion := "v" ++ toString alertConfigurationVersion,
                  orgID := sampleAm.orgID, lastApplied := 1700000000 }]) ∧
    SaveAndApplyConfig sampleAm sampleConfig (.ok ⟨500, ""⟩) [] 1700000000 none =
      (.error (.postError (.unexpectedStatus 500)), []) :=
  ⟨(saveAndApply_push_then_persist sampleAm sampleConfig (.ok ⟨201, ""⟩) []
      1700000000).2 rfl,
   (saveAndApply_push_then_persist sampleAm sampleConfig (.ok ⟨500, ""⟩) []
      1700000000).1 (.unexpectedStatus 500) none rfl⟩

end GrafanaRemote
